import Mathlib

/-!
Verification of the telemedicine video-call core against its specification.

The definitions below are shallow embeddings of the TypeScript sources:
* `ConnectionQualityMonitor` (link-quality classifier),
* `MedicalVideoCall` (error surfacing, retry bounding, teardown callback),
* `ConnectionErrorHandler` (error banner with retry/dismiss actions),
* `CloudflareRealtimeVideo` (session bootstrap, role assignment, media toggles,
  `endCall`),
* `MediaManager` (`app/services/media-manager.ts`).

Numbers that the code handles as JS floats are modelled as rationals; machine
time (Date.now, setTimeout delays) is modelled as natural-number milliseconds.
Two pieces of the system are referenced by the sources but their files are not
present (`app/services/webrtc-manager.ts` and `workers/api/video-sessions.ts`);
those two are modelled from the specification and marked as such in their doc
comments.
-/

/-! ## Link quality classifier (`ConnectionQualityMonitor`) -/

/-- The four quality grades of `ConnectionQualityMonitor`. -/
inductive QualityLevel
  | excellent
  | good
  | fair
  | poor
deriving DecidableEq, Repr

/-- The fields of a metrics sample that the quality classifier reads:
`packetLossRate` (fraction), `rtt` (milliseconds), `jitter` (seconds; the UI
multiplies by 1000 for display). -/
structure ConnectionMetrics where
  packetLossRate : ℚ
  rtt : ℚ
  jitter : ℚ
deriving DecidableEq

/-- The quality cascade in `ConnectionQualityMonitor`'s effect: first
satisfying bucket wins, `poor` otherwise. -/
def classifyQuality (m : ConnectionMetrics) : QualityLevel :=
  if m.packetLossRate < 1/100 ∧ m.rtt < 100 ∧ m.jitter < 1/100 then .excellent
  else if m.packetLossRate < 3/100 ∧ m.rtt < 200 ∧ m.jitter < 2/100 then .good
  else if m.packetLossRate < 5/100 ∧ m.rtt < 300 ∧ m.jitter < 3/100 then .fair
  else .poor

/-- The effect guarding the classifier: a null metrics sample leaves the
previous grade untouched; a non-null sample is classified with no memory of
the previous grade. -/
def updateQualityLevel (prev : QualityLevel) : Option ConnectionMetrics → QualityLevel
  | none => prev
  | some m => classifyQuality m

/-! ## Negotiation roles (`CloudflareRealtimeVideo.initializeSession`) -/

/-- The two participant user types. -/
inductive UserType
  | patient
  | worker
deriving DecidableEq, Repr

/-- Negotiation roles. -/
inductive Role
  | initiator
  | responder
deriving DecidableEq, Repr

/-- Embeds `const isInitiator = userType === "patient"` from `initializeSession`. -/
def isInitiator (u : UserType) : Bool :=
  u == .patient

/-- The role determined by the user type. -/
def roleOf (u : UserType) : Role :=
  if isInitiator u then .initiator else .responder

/-- Whether `initializeSession` reaches the `manager.createOffer()` call:
the call sits after `await manager.initialize(...)` (so it is skipped when the
attach fails and control jumps to the catch block) and inside the
`userType === "patient"` branch. -/
def callsCreateOffer (u : UserType) (attachSucceeded : Bool) : Bool :=
  attachSucceeded && isInitiator u

/-! ## Error taxonomy and surfaced-error state (`MedicalVideoCall`,
`ConnectionErrorHandler`) -/

/-- The five `ConnectionError` kinds. -/
inductive ErrorType
  | network
  | permission
  | device
  | server
  | unknown
deriving DecidableEq, Repr

/-- Whether `needle` starts the list `hay` (helper for substring search). -/
def charsStartWith (needle hay : List Char) : Bool :=
  match needle, hay with
  | [], _ => true
  | _ :: _, [] => false
  | a :: as, b :: bs => a == b && charsStartWith as bs

/-- Whether `needle` occurs contiguously inside `hay`. -/
def charsContain (needle hay : List Char) : Bool :=
  match hay with
  | [] => charsStartWith needle []
  | _ :: rest => charsStartWith needle hay || charsContain needle rest

/-- JS `msg.includes(sub)`. -/
def includesStr (msg sub : String) : Bool :=
  charsContain sub.toList msg.toList

/-- The error-type cascade of `MedicalVideoCall`'s network-state effect:
`errorType` starts as `unknown` and the first matching keyword branch wins
(permission, then device, then server, then network). -/
def classifyNetworkError (msg : String) : ErrorType :=
  if includesStr msg "カメラ" || includesStr msg "マイク" || includesStr msg "権限" then .permission
  else if includesStr msg "デバイス" || includesStr msg "カメラ" || includesStr msg "マイク" then .device
  else if includesStr msg "サーバー" || includesStr msg "API" then .server
  else if includesStr msg "ネットワーク" || includesStr msg "接続" then .network
  else .unknown

/-- The surfaced `connectionError` record of `MedicalVideoCall` (field names
from the source; `timestamp` is a millisecond clock reading). -/
structure ConnectionError where
  message : String
  type : ErrorType
  timestamp : Nat
  retryCount : Nat
deriving DecidableEq, Repr

/-- The delay of the auto-clear `setTimeout` in `MedicalVideoCall` (10000 ms). -/
def autoClearDelayMs : Nat := 10000

/-- The error-related component state of `MedicalVideoCall`: the raw
`networkError` string, the surfaced `connectionError` (a single slot, not a
queue), and the pending auto-clear timer of the `[networkError]` effect,
recorded as its scheduled fire time. -/
structure ErrorHandlingState where
  networkError : Option String
  connectionError : Option ConnectionError
  autoClearTimer : Option Nat
deriving DecidableEq, Repr

/-- Events acting on `MedicalVideoCall`'s error state. Each carries the
current clock reading in milliseconds. -/
inductive ErrorEvent
  | raiseNetworkError (msg : String) (now : Nat)
  | retryClick (now : Nat)
  | dismissClick (now : Nat)
  | autoClearFire (now : Nat)
deriving DecidableEq, Repr

/-- One step of `MedicalVideoCall`'s error handling, mirroring the source:

* `raiseNetworkError`: `setNetworkError(msg)`; the `[networkError]` effect then
  cancels any previous timer, classifies the message, stores a fresh
  `connectionError` with `retryCount` 0, and arms a 10 s auto-clear timer;
* `retryClick` (`handleErrorRetry`): bumps `retryCount` by `Math.min(·+1, 3)`
  and refreshes `timestamp`, then `setNetworkError(null)` — when `networkError`
  was non-null this re-runs the effect, whose cleanup cancels the pending
  timer;
* `dismissClick` (`handleErrorDismiss`): clears both error fields (and the
  timer, via the same effect cleanup, when `networkError` was non-null);
* `autoClearFire`: the `setTimeout` body, firing only at its scheduled time:
  `setNetworkError(null); setConnectionError(null)`. -/
def errorStep (s : ErrorHandlingState) : ErrorEvent → ErrorHandlingState
  | .raiseNetworkError msg now =>
      { networkError := some msg,
        connectionError := some ⟨msg, classifyNetworkError msg, now, 0⟩,
        autoClearTimer := some (now + autoClearDelayMs) }
  | .retryClick now =>
      { networkError := none,
        connectionError :=
          match s.connectionError with
          | some e => some { e with retryCount := min (e.retryCount + 1) 3, timestamp := now }
          | none => none,
        autoClearTimer := if s.networkError.isSome then none else s.autoClearTimer }
  | .dismissClick _ =>
      { networkError := none,
        connectionError := none,
        autoClearTimer := if s.networkError.isSome then none else s.autoClearTimer }
  | .autoClearFire now =>
      match s.autoClearTimer with
      | some fireAt =>
          if now = fireAt then
            { networkError := none, connectionError := none, autoClearTimer := none }
          else s
      | none => s

/-- The error state before any failure. -/
def initialErrorState : ErrorHandlingState :=
  ⟨none, none, none⟩

/-- Runs a sequence of error events from the initial state. -/
def errorRun (events : List ErrorEvent) : ErrorHandlingState :=
  events.foldl errorStep initialErrorState

/-- How many errors are surfaced at once: `connectionError` is a single slot,
not a queue. -/
def surfacedErrorCount (s : ErrorHandlingState) : Nat :=
  if s.connectionError.isSome then 1 else 0

/-- Whether `ConnectionErrorHandler` offers the retry action for a surfaced
error: the 再試行 button is rendered with `onClick=onRetry` unconditionally —
no `disabled` attribute, no check of `retryCount`. -/
def retryActionAvailable (_e : ConnectionError) : Bool :=
  true

/-! ## Teardown callback (`MedicalVideoCall.handleSessionEnd`,
`CloudflareRealtimeVideo.endCall`) -/

/-- Number of invocations of the page-level termination callback (the
`onSessionEnd` prop of `MedicalVideoCall`) during one teardown, as a function
of how many queued asynchronous turns run.  `handleSessionEnd` invokes the
callback once immediately, then schedules `videoRef.endCall()`;
`CloudflareRealtimeVideo.endCall` finishes by invoking its own `onSessionEnd`
prop — which `MedicalVideoCall` wires to `handleSessionEnd` itself — so each
asynchronous round re-enters `handleSessionEnd`.  With no `videoRef`
registered the chain stops after the first invocation. -/
def handleSessionEndCallbackCount : Nat → Bool → Nat
  | 0, _ => 0
  | rounds + 1, videoRefSet =>
      1 + (if videoRefSet then handleSessionEndCallbackCount rounds true else 0)

/-! ## Media toggles (`CloudflareRealtimeVideo.toggleAudio` / `toggleVideo`) -/

/-- A media track: identity plus the mutable `enabled` flag. -/
structure MediaTrack where
  id : Nat
  enabled : Bool
deriving DecidableEq, Repr

/-- A local media stream: object identity plus its audio and video tracks. -/
structure LocalStream where
  id : Nat
  audioTracks : List MediaTrack
  videoTracks : List MediaTrack
deriving DecidableEq, Repr

/-- The `RTCPeerConnectionState` values. -/
inductive PeerConnectionState
  | new
  | connecting
  | connected
  | disconnected
  | failed
  | closed
deriving DecidableEq, Repr

/-- The `mediaControls` mirror state of `CloudflareRealtimeVideo`. -/
structure MediaControls where
  audio : Bool
  video : Bool
deriving DecidableEq, Repr

/-- The component state of `CloudflareRealtimeVideo` that the media toggles
can reach (the ICE state is kept as its string form). -/
structure VideoCallState where
  localStream : Option LocalStream
  mediaControls : MediaControls
  connectionState : PeerConnectionState
  iceConnectionState : String
deriving DecidableEq, Repr

/-- Outward network operations a handler may issue (session-end request,
signaling (re)negotiation message).  The media toggles issue none. -/
inductive NetworkEffect
  | sessionEndRequest (sessionId : String)
  | signalingMessage (kind : String)
deriving DecidableEq, Repr

/-- Embeds `CloudflareRealtimeVideo.toggleAudio(enabled)`: when a local stream is
present, sets `enabled` on each of its audio tracks and mirrors the flag into
`mediaControls.audio`; otherwise does nothing.  Returns the issued network
operations alongside the new state (the source body contains none). -/
def toggleAudio (enabled : Bool) (s : VideoCallState) : VideoCallState × List NetworkEffect :=
  match s.localStream with
  | none => (s, [])
  | some ls =>
      ({ s with
          localStream := some
            { ls with audioTracks := ls.audioTracks.map fun t => { t with enabled := enabled } },
          mediaControls := { s.mediaControls with audio := enabled } }, [])

/-- Embeds `CloudflareRealtimeVideo.toggleVideo(enabled)`, symmetric to
`toggleAudio`. -/
def toggleVideo (enabled : Bool) (s : VideoCallState) : VideoCallState × List NetworkEffect :=
  match s.localStream with
  | none => (s, [])
  | some ls =>
      ({ s with
          localStream := some
            { ls with videoTracks := ls.videoTracks.map fun t => { t with enabled := enabled } },
          mediaControls := { s.mediaControls with video := enabled } }, [])

/-! ## `MediaManager` (`app/services/media-manager.ts`) -/

/-- A track held by `MediaManager`: identity, the `enabled` flag, and whether
`stop()` has been called on it. -/
structure ManagedTrack where
  id : Nat
  enabled : Bool
  stopped : Bool
deriving DecidableEq, Repr

/-- The private state of a `MediaManager` instance.  A stream is modelled by
the ids of the tracks it contains (stream identity is its track list; the
`enabled` flags live on the tracks, as in the browser API). -/
structure MediaManagerState where
  audioTrack : Option ManagedTrack
  videoTrack : Option ManagedTrack
  screenTrack : Option ManagedTrack
  audioStream : Option (List Nat)
  videoStream : Option (List Nat)
  screenStream : Option (List Nat)
  isInitialized : Bool
deriving DecidableEq, Repr

/-- Embeds `MediaManager.toggleAudio(enabled)`: warn-and-return when no audio track
is held, otherwise set the track's `enabled` flag. -/
def MediaManager.toggleAudio (enabled : Bool) (s : MediaManagerState) : MediaManagerState :=
  match s.audioTrack with
  | none => s
  | some t => { s with audioTrack := some { t with enabled := enabled } }

/-- Embeds `MediaManager.toggleVideo(enabled)`, symmetric to
`MediaManager.toggleAudio`. -/
def MediaManager.toggleVideo (enabled : Bool) (s : MediaManagerState) : MediaManagerState :=
  match s.videoTrack with
  | none => s
  | some t => { s with videoTrack := some { t with enabled := enabled } }

/-- Embeds `MediaManager.stopAllStreams()`: stops every held track, then nulls all
tracks and streams and resets `isInitialized`. -/
def MediaManager.stopAllStreams (_s : MediaManagerState) : MediaManagerState :=
  { audioTrack := none, videoTrack := none, screenTrack := none,
    audioStream := none, videoStream := none, screenStream := none,
    isInitialized := false }

/-- The result record of `MediaManager.getTrackStates()`. -/
structure TrackStates where
  audioEnabled : Bool
  videoEnabled : Bool
  screenSharing : Bool
deriving DecidableEq, Repr

/-- Embeds `MediaManager.getTrackStates()`: the `enabled` flags of the tracks (false when
absent) and whether a screen track is held. -/
def MediaManager.getTrackStates (s : MediaManagerState) : TrackStates :=
  { audioEnabled := (s.audioTrack.map fun t => t.enabled).getD false,
    videoEnabled := (s.videoTrack.map fun t => t.enabled).getD false,
    screenSharing := s.screenTrack.isSome }

/-! ## ICE candidate buffering (connection lifecycle manager) -/

/-- Modelled from the spec: `app/services/webrtc-manager.ts` (the
`WebRTCManager` imported by `CloudflareRealtimeVideo`) is not among the
sources.  Spec §4.2: candidates arriving before the remote description is set
are buffered and applied once it is set, never dropped.  The negotiation state
tracks whether the remote description has been set, the buffered (pending)
candidates, and the candidates already applied to the peer connection. -/
structure NegotiationState where
  remoteDescriptionSet : Bool
  pendingCandidates : List Nat
  appliedCandidates : List Nat
deriving DecidableEq, Repr

/-- Asynchronous negotiation events seen by the lifecycle manager: arrival of
a (trickle) ICE candidate, or the remote description being set. -/
inductive NegotiationEvent
  | iceCandidate (c : Nat)
  | remoteDescription
deriving DecidableEq, Repr

/-- Modelled from the spec (`app/services/webrtc-manager.ts` missing): a
candidate is applied immediately when the remote description is already set
and buffered otherwise; setting the remote description applies the whole
buffer in arrival order and empties it. -/
def negotiationStep (s : NegotiationState) : NegotiationEvent → NegotiationState
  | .iceCandidate c =>
      if s.remoteDescriptionSet then
        { s with appliedCandidates := s.appliedCandidates ++ [c] }
      else
        { s with pendingCandidates := s.pendingCandidates ++ [c] }
  | .remoteDescription =>
      { remoteDescriptionSet := true,
        pendingCandidates := [],
        appliedCandidates := s.appliedCandidates ++ s.pendingCandidates }

/-- Runs a sequence of negotiation events from the pristine state. -/
def negotiationRun (events : List NegotiationEvent) : NegotiationState :=
  events.foldl negotiationStep ⟨false, [], []⟩

/-! ## Session bootstrap (`initializeSession` and the session registry) -/

/-- Modelled from the spec: the registry route `workers/api/video-sessions.ts`
is imported by `workers/app.ts` but not among the sources.  Spec §3/§4.1: at
most one active Session per appointment; the registry state maps appointment
ids to the winning session id. -/
def RegistryState : Type := List (Nat × Nat)

/-- The active session for an appointment, if any. -/
def lookupSession (st : RegistryState) (appointmentId : Nat) : Option Nat :=
  match List.find? (fun p => p.1 == appointmentId) st with
  | some p => some p.2
  | none => none

/-- Result of the registry's create call. -/
inductive CreateResult
  | created (sessionId : Nat)
  | alreadyExists
deriving DecidableEq, Repr

/-- Modelled from the spec (`workers/api/video-sessions.ts` missing): create
registers a fresh session unless the appointment already has an active one, in
which case it fails with the "Session already exists" error that
`initializeSession` matches on. -/
def registryCreate (st : RegistryState) (appointmentId freshId : Nat) :
    RegistryState × CreateResult :=
  match lookupSession st appointmentId with
  | some _ => (st, .alreadyExists)
  | none => ((appointmentId, freshId) :: st, .created freshId)

/-- Modelled from the spec (`workers/api/video-sessions.ts` missing): join
returns the winning session id of the appointment's active session. -/
def registryJoin (st : RegistryState) (appointmentId : Nat) : Option Nat :=
  lookupSession st appointmentId

/-- Outcome of one client bootstrap. -/
inductive BootstrapOutcome
  | ok (sessionId : Nat)
  | failed (msg : String)
deriving DecidableEq, Repr

/-- The bootstrap control flow of `CloudflareRealtimeVideo.initializeSession`
(from the source): call create; on success use the returned session id; when
create fails with the existing-session error, fall back to the join call and
use the session id it returns; the error state is set only when that fallback
also finds nothing. -/
def initializeSession (st : RegistryState) (appointmentId freshId : Nat) :
    RegistryState × BootstrapOutcome :=
  match registryCreate st appointmentId freshId with
  | (st2, .created sid) => (st2, .ok sid)
  | (st2, .alreadyExists) =>
      match registryJoin st2 appointmentId with
      | some sid => (st2, .ok sid)
      | none => (st2, .failed "Session already exists")

/-! ## Theorems -/

/-- C1: the link-quality grade of a non-null metrics sample is the ordered
cascade over (packetLossRate, rtt, jitter) — `excellent` iff loss < 1% and
RTT < 100 ms and jitter < 0.01 s (10 ms); else `good` iff loss < 3%,
RTT < 200 ms, jitter < 0.02 s; else `fair` iff loss < 5%, RTT < 300 ms,
jitter < 0.03 s; else `poor` — independent of the previously displayed grade,
and in particular loss = 0.009, RTT = 90, jitter = 0.005 grades `excellent`
while loss = 0.011 with the same RTT and jitter grades `good`. -/
theorem quality_grade_cascade :
    (∀ prev m, updateQualityLevel prev (some m) = classifyQuality m) ∧
    (∀ m : ConnectionMetrics,
      (classifyQuality m = .excellent ↔
        m.packetLossRate < 1/100 ∧ m.rtt < 100 ∧ m.jitter < 1/100) ∧
      (classifyQuality m = .good ↔
        ¬(m.packetLossRate < 1/100 ∧ m.rtt < 100 ∧ m.jitter < 1/100) ∧
        (m.packetLossRate < 3/100 ∧ m.rtt < 200 ∧ m.jitter < 2/100)) ∧
      (classifyQuality m = .fair ↔
        ¬(m.packetLossRate < 1/100 ∧ m.rtt < 100 ∧ m.jitter < 1/100) ∧
        ¬(m.packetLossRate < 3/100 ∧ m.rtt < 200 ∧ m.jitter < 2/100) ∧
        (m.packetLossRate < 5/100 ∧ m.rtt < 300 ∧ m.jitter < 3/100)) ∧
      (classifyQuality m = .poor ↔
        ¬(m.packetLossRate < 1/100 ∧ m.rtt < 100 ∧ m.jitter < 1/100) ∧
        ¬(m.packetLossRate < 3/100 ∧ m.rtt < 200 ∧ m.jitter < 2/100) ∧
        ¬(m.packetLossRate < 5/100 ∧ m.rtt < 300 ∧ m.jitter < 3/100))) ∧
    classifyQuality ⟨9/1000, 90, 5/1000⟩ = .excellent ∧
    classifyQuality ⟨11/1000, 90, 5/1000⟩ = .good := by
  refine ⟨fun prev m => rfl, fun m => ?_, by norm_num [classifyQuality], by norm_num [classifyQuality]⟩
  unfold classifyQuality
  split_ifs with h1 h2 h3 <;> simp_all

/-- C2: role is a pure function of userType — patient is the initiator,
worker is the responder — and `createOffer` is reached exactly when the
participant is the patient and the attach succeeded; the responder never
creates an offer. -/
theorem role_pure_function_of_user_type :
    roleOf .patient = .initiator ∧
    roleOf .worker = .responder ∧
    (∀ u ok, callsCreateOffer u ok = true ↔ ok = true ∧ u = .patient) ∧
    (∀ ok, callsCreateOffer .worker ok = false) ∧
    (∀ u, callsCreateOffer u false = false) := by
  refine ⟨rfl, rfl, fun u ok => ?_, fun ok => ?_, fun u => ?_⟩
  · cases u <;> cases ok <;> simp [callsCreateOffer, isInitiator]
  · cases ok <;> rfl
  · cases u <;> rfl

/-- Helper: one negotiation step never removes a candidate from the union of
applied and pending candidates. -/
theorem negotiationStep_keeps_candidate (s : NegotiationState) (e : NegotiationEvent) (c : Nat)
    (h : c ∈ s.appliedCandidates ++ s.pendingCandidates) :
    c ∈ (negotiationStep s e).appliedCandidates ++ (negotiationStep s e).pendingCandidates := by
  cases e with
  | iceCandidate d =>
      by_cases hr : s.remoteDescriptionSet <;>
        simp_all [negotiationStep, List.mem_append] <;> tauto
  | remoteDescription =>
      simp_all [negotiationStep, List.mem_append]

/-- Helper: the step consuming `iceCandidate c` records `c`. -/
theorem negotiationStep_records_candidate (s : NegotiationState) (c : Nat) :
    c ∈ (negotiationStep s (.iceCandidate c)).appliedCandidates ++
        (negotiationStep s (.iceCandidate c)).pendingCandidates := by
  by_cases hr : s.remoteDescriptionSet <;>
    simp [negotiationStep, hr, List.mem_append]

/-- Helper: folding the negotiation machine never drops a candidate that was
already recorded or that occurs among the remaining events. -/
theorem negotiation_foldl_no_drop (events : List NegotiationEvent) (s : NegotiationState)
    (c : Nat)
    (h : c ∈ s.appliedCandidates ++ s.pendingCandidates ∨
         NegotiationEvent.iceCandidate c ∈ events) :
    c ∈ (events.foldl negotiationStep s).appliedCandidates ++
        (events.foldl negotiationStep s).pendingCandidates := by
  induction events generalizing s with
  | nil => simpa using h.resolve_right (by simp)
  | cons e rest ih =>
      rcases h with h | h
      · exact ih _ (Or.inl (negotiationStep_keeps_candidate s e c h))
      · rcases List.mem_cons.mp h with he | hrest
        · subst he
          exact ih _ (Or.inl (negotiationStep_records_candidate s c))
        · exact ih _ (Or.inr hrest)

/-- Helper: once the remote description is set and the buffer is empty, both
facts persist through any further events. -/
theorem negotiation_foldl_stays_applied (events : List NegotiationEvent) (s : NegotiationState)
    (h1 : s.remoteDescriptionSet = true) (h2 : s.pendingCandidates = []) :
    (events.foldl negotiationStep s).remoteDescriptionSet = true ∧
    (events.foldl negotiationStep s).pendingCandidates = [] := by
  induction events generalizing s with
  | nil => exact ⟨h1, h2⟩
  | cons e rest ih =>
      cases e with
      | iceCandidate c =>
          exact ih _ (by simp [negotiationStep, h1]) (by simp [negotiationStep, h1, h2])
      | remoteDescription =>
          exact ih _ rfl rfl

/-- Helper: after a run containing the remote-description event the buffer is
empty. -/
theorem negotiation_foldl_remote_empties (events : List NegotiationEvent) (s : NegotiationState)
    (h : NegotiationEvent.remoteDescription ∈ events) :
    (events.foldl negotiationStep s).remoteDescriptionSet = true ∧
    (events.foldl negotiationStep s).pendingCandidates = [] := by
  induction events generalizing s with
  | nil => cases h
  | cons e rest ih =>
      rcases List.mem_cons.mp h with he | hrest
      · subst he
        exact negotiation_foldl_stays_applied rest _ rfl rfl
      · exact ih _ hrest

/-- C3: every ICE candidate received by the connection lifecycle manager is
retained — buffered while the remote description is unset, applied afterwards
— for every interleaving of candidate arrivals and the remote-description
event; once the run contains the remote-description event the buffer is empty
and the candidate has been applied. -/
theorem ice_candidate_buffering_no_drop :
    ∀ (events : List NegotiationEvent) (c : Nat),
      NegotiationEvent.iceCandidate c ∈ events →
        c ∈ (negotiationRun events).appliedCandidates ++
            (negotiationRun events).pendingCandidates ∧
        (NegotiationEvent.remoteDescription ∈ events →
          (negotiationRun events).pendingCandidates = [] ∧
          c ∈ (negotiationRun events).appliedCandidates) := by
  intro events c hc
  have hmem := negotiation_foldl_no_drop events ⟨false, [], []⟩ c (Or.inr hc)
  refine ⟨hmem, fun hrd => ?_⟩
  have hfin := negotiation_foldl_remote_empties events ⟨false, [], []⟩ hrd
  refine ⟨hfin.2, ?_⟩
  have := hmem
  rw [show (negotiationRun events) = events.foldl negotiationStep ⟨false, [], []⟩ from rfl] at *
  simpa [hfin.2] using this

/-- Witness for C3 at a concrete interleaving: candidate 1 arrives before the
remote description, candidate 2 after; neither is dropped. -/
theorem ice_candidate_buffering_no_drop_witness :
    (NegotiationEvent.iceCandidate 1 ∈
      [NegotiationEvent.iceCandidate 1, NegotiationEvent.remoteDescription,
       NegotiationEvent.iceCandidate 2]) ∧
    (1 ∈ (negotiationRun [NegotiationEvent.iceCandidate 1, NegotiationEvent.remoteDescription,
            NegotiationEvent.iceCandidate 2]).appliedCandidates ++
          (negotiationRun [NegotiationEvent.iceCandidate 1, NegotiationEvent.remoteDescription,
            NegotiationEvent.iceCandidate 2]).pendingCandidates ∧
     (NegotiationEvent.remoteDescription ∈
        [NegotiationEvent.iceCandidate 1, NegotiationEvent.remoteDescription,
         NegotiationEvent.iceCandidate 2] →
       (negotiationRun [NegotiationEvent.iceCandidate 1, NegotiationEvent.remoteDescription,
          NegotiationEvent.iceCandidate 2]).pendingCandidates = [] ∧
       1 ∈ (negotiationRun [NegotiationEvent.iceCandidate 1, NegotiationEvent.remoteDescription,
              NegotiationEvent.iceCandidate 2]).appliedCandidates)) :=
  ⟨by decide,
   ice_candidate_buffering_no_drop
     [NegotiationEvent.iceCandidate 1, NegotiationEvent.remoteDescription,
      NegotiationEvent.iceCandidate 2] 1 (by decide)⟩

/-- C4: the termination callback is NOT invoked exactly once per teardown —
the code invokes it once per executed asynchronous round.  `handleSessionEnd`
calls the page-level `onSessionEnd` immediately and schedules
`videoRef.endCall()`; `endCall` ends by calling its `onSessionEnd` prop, which
is `handleSessionEnd` itself, so with a registered `videoRef` (the normal
mounted state) two rounds already yield two invocations, and `rounds` rounds
yield `rounds` invocations, unbounded.  Exactly-once holds only in the
degenerate case where no `videoRef` was ever registered. -/
theorem termination_callback_fires_per_round :
    handleSessionEndCallbackCount 2 true = 2 ∧
    (∀ rounds, handleSessionEndCallbackCount rounds true = rounds) ∧
    (∀ rounds, handleSessionEndCallbackCount (rounds + 1) false = 1) := by
  refine ⟨rfl, ?_, fun r => rfl⟩
  intro r
  induction r with
  | zero => rfl
  | succ n ih => simp [handleSessionEndCallbackCount, ih, Nat.add_comm]

/-- C5 counterexample: a surfaced error is NOT cleared 10 seconds after being
surfaced regardless of user action.  An error is surfaced at t = 0 (arming
the auto-clear for t = 10000); the user clicks retry (not dismiss) at
t = 5000; the retry's `setNetworkError(null)` re-runs the `[networkError]`
effect, whose cleanup cancels the timer, so at t = 10000 there is no timer to
fire and the error is still surfaced. -/
theorem error_auto_clear_cancelled_by_retry :
    (errorRun [ErrorEvent.raiseNetworkError "接続に失敗しました。" 0,
               ErrorEvent.retryClick 5000]).connectionError.isSome = true ∧
    (errorRun [ErrorEvent.raiseNetworkError "接続に失敗しました。" 0,
               ErrorEvent.retryClick 5000]).autoClearTimer = none ∧
    errorStep (errorRun [ErrorEvent.raiseNetworkError "接続に失敗しました。" 0,
                         ErrorEvent.retryClick 5000])
        (ErrorEvent.autoClearFire 10000) =
      errorRun [ErrorEvent.raiseNetworkError "接続に失敗しました。" 0,
                ErrorEvent.retryClick 5000] := by
  decide

/-- C5 (amended): surfacing an error schedules an auto-clear exactly
`autoClearDelayMs` (10000 ms) after the surfacing instant, and the timer, when
still pending, clears both error fields at its scheduled time; but a manual
retry while `networkError` is set cancels the pending auto-clear (the error
then persists until dismissed or replaced).  At most one error is surfaced at
any moment — a new error overwrites the slot, there is no queue. -/
theorem error_auto_clear_behavior :
    (∀ s msg now, errorStep s (.raiseNetworkError msg now) =
      { networkError := some msg,
        connectionError := some ⟨msg, classifyNetworkError msg, now, 0⟩,
        autoClearTimer := some (now + autoClearDelayMs) }) ∧
    (∀ s fireAt, s.autoClearTimer = some fireAt →
      errorStep s (.autoClearFire fireAt) =
        { networkError := none, connectionError := none, autoClearTimer := none }) ∧
    (∀ s now, s.networkError.isSome = true →
      (errorStep s (.retryClick now)).autoClearTimer = none) ∧
    (∀ events, surfacedErrorCount (errorRun events) ≤ 1) := by
  refine ⟨fun s msg now => rfl, fun s fireAt h => ?_, fun s now h => ?_, fun events => ?_⟩
  · simp [errorStep, h]
  · simp [errorStep, h]
  · unfold surfacedErrorCount
    split <;> simp

/-- Witness for C5 (amended) at concrete states: the timer armed for t = 99
fires at t = 99 and clears everything; a retry taken while `networkError` is
set cancels the timer. -/
theorem error_auto_clear_behavior_witness :
    errorStep ⟨some "m", some ⟨"m", ErrorType.unknown, 0, 0⟩, some 99⟩
        (ErrorEvent.autoClearFire 99) =
      ⟨none, none, none⟩ ∧
    (errorStep ⟨some "m", some ⟨"m", ErrorType.unknown, 0, 0⟩, some 99⟩
        (ErrorEvent.retryClick 5)).autoClearTimer = none :=
  ⟨error_auto_clear_behavior.2.1 ⟨some "m", some ⟨"m", ErrorType.unknown, 0, 0⟩, some 99⟩ 99 rfl,
   error_auto_clear_behavior.2.2.1 ⟨some "m", some ⟨"m", ErrorType.unknown, 0, 0⟩, some 99⟩ 5 rfl⟩

/-- C6 counterexample: reaching the cap of 3 does NOT disable retry, and a 4th
retry is not a no-op.  After an error and four retry clicks the count sits at
3 (the cap held), yet the retry action is still offered for the surfaced
error, and the 4th click did change the state (it refreshed the error's
timestamp from 3 to 4 and was processed normally). -/
theorem retry_cap_counterexample :
    (errorRun [ErrorEvent.raiseNetworkError "接続に失敗しました。" 0,
               ErrorEvent.retryClick 1, ErrorEvent.retryClick 2,
               ErrorEvent.retryClick 3, ErrorEvent.retryClick 4]).connectionError =
      some ⟨"接続に失敗しました。", ErrorType.network, 4, 3⟩ ∧
    retryActionAvailable ⟨"接続に失敗しました。", ErrorType.network, 4, 3⟩ = true ∧
    errorRun [ErrorEvent.raiseNetworkError "接続に失敗しました。" 0,
              ErrorEvent.retryClick 1, ErrorEvent.retryClick 2,
              ErrorEvent.retryClick 3, ErrorEvent.retryClick 4] ≠
      errorRun [ErrorEvent.raiseNetworkError "接続に失敗しました。" 0,
                ErrorEvent.retryClick 1, ErrorEvent.retryClick 2,
                ErrorEvent.retryClick 3] := by
  decide

/-- Helper: every transition keeps `retryCount` at most 3. -/
theorem errorStep_retryCount_le (s : ErrorHandlingState) (e : ErrorEvent)
    (h : ∀ er, s.connectionError = some er → er.retryCount ≤ 3) :
    ∀ er, (errorStep s e).connectionError = some er → er.retryCount ≤ 3 := by
  cases e with
  | raiseNetworkError msg now =>
      intro er her
      simp [errorStep] at her
      simp [← her]
  | retryClick now =>
      intro er her
      simp only [errorStep] at her
      cases hce : s.connectionError with
      | none => simp [hce] at her
      | some e0 =>
          simp [hce] at her
          simp [← her]
  | dismissClick now =>
      intro er her
      simp [errorStep] at her
  | autoClearFire now =>
      intro er her
      cases hat : s.autoClearTimer with
      | none =>
          simp [errorStep, hat] at her
          exact h er her
      | some fireAt =>
          simp [errorStep, hat] at her
          by_cases hn : now = fireAt
          · simp [hn] at her
          · simp [hn] at her
            exact h er her

/-- Helper: `retryCount ≤ 3` is an invariant of every run. -/
theorem errorRun_retryCount_le (events : List ErrorEvent) (s : ErrorHandlingState)
    (h : ∀ er, s.connectionError = some er → er.retryCount ≤ 3) :
    ∀ er, (events.foldl errorStep s).connectionError = some er → er.retryCount ≤ 3 := by
  induction events generalizing s with
  | nil => exact h
  | cons e rest ih => exact ih _ (errorStep_retryCount_le s e h)

/-- C6 (amended): `retryCount` never exceeds 3 on any event sequence —
`handleErrorRetry` saturates the increment at 3 — but retry is not disabled
at the cap: a retry click from a state whose surfaced error has
`retryCount = 3` is still processed, leaving the count at 3 while refreshing
the error's timestamp (and, like every retry, clearing `networkError`). -/
theorem retry_count_capped :
    (∀ events er, (errorRun events).connectionError = some er → er.retryCount ≤ 3) ∧
    (∀ s er now, s.connectionError = some er → er.retryCount = 3 →
      (errorStep s (.retryClick now)).connectionError =
        some { er with retryCount := 3, timestamp := now }) := by
  constructor
  · intro events er h
    exact errorRun_retryCount_le events initialErrorState (by intro er2 h2; cases h2) er h
  · intro s er now hce hrc
    simp [errorStep, hce, hrc]

/-- Witness for C6 at concrete inputs: a run with one error and one retry has
`retryCount ≤ 3`, and a 4th retry from a capped error keeps the count at 3
while refreshing the timestamp. -/
theorem retry_count_capped_witness :
    (errorRun [ErrorEvent.raiseNetworkError "x" 0, ErrorEvent.retryClick 1]).connectionError =
      some ⟨"x", ErrorType.unknown, 1, 1⟩ ∧
    (1 : Nat) ≤ 3 ∧
    (errorStep ⟨none, some ⟨"x", ErrorType.unknown, 7, 3⟩, none⟩
        (ErrorEvent.retryClick 9)).connectionError =
      some ⟨"x", ErrorType.unknown, 9, 3⟩ :=
  ⟨by decide,
   retry_count_capped.1 [ErrorEvent.raiseNetworkError "x" 0, ErrorEvent.retryClick 1]
     ⟨"x", ErrorType.unknown, 1, 1⟩ (by decide),
   retry_count_capped.2 ⟨none, some ⟨"x", ErrorType.unknown, 7, 3⟩, none⟩
     ⟨"x", ErrorType.unknown, 7, 3⟩ 9 rfl rfl⟩

/-- C7 counterexample: a bootstrap/server failure does NOT classify as
`server`.  The code's own bootstrap-failure message, the literal
`"Failed to create session"` thrown by `initializeSession` when the create
call fails, carries none of the classifier's Japanese keywords and is
classified `unknown`. -/
theorem bootstrap_failure_not_classified_server :
    classifyNetworkError "Failed to create session" = ErrorType.unknown ∧
    classifyNetworkError "Failed to create session" ≠ ErrorType.server := by
  decide

/-- C7 (amended): every failure message is classified into exactly one of the
five kinds by a keyword cascade on the message text — `permission` iff it
mentions カメラ, マイク or 権限; otherwise `device` iff it mentions デバイス
(or カメラ/マイク, unreachable here); otherwise `server` iff it mentions
サーバー or API; otherwise `network` iff it mentions ネットワーク or 接続;
otherwise `unknown`.  The repo's media-access denial message classifies
`permission` and its connection-failure messages classify `network`, but a
failure whose message carries no keyword — including the bootstrap-failure
message — classifies `unknown`, not `server`. -/
theorem error_classification_keyword_cascade :
    (∀ msg,
      (classifyNetworkError msg = .permission ↔
        (includesStr msg "カメラ" || includesStr msg "マイク" || includesStr msg "権限") = true) ∧
      (classifyNetworkError msg = .device ↔
        (includesStr msg "カメラ" || includesStr msg "マイク" || includesStr msg "権限") = false ∧
        (includesStr msg "デバイス" || includesStr msg "カメラ" || includesStr msg "マイク") = true) ∧
      (classifyNetworkError msg = .server ↔
        (includesStr msg "カメラ" || includesStr msg "マイク" || includesStr msg "権限") = false ∧
        (includesStr msg "デバイス" || includesStr msg "カメラ" || includesStr msg "マイク") = false ∧
        (includesStr msg "サーバー" || includesStr msg "API") = true) ∧
      (classifyNetworkError msg = .network ↔
        (includesStr msg "カメラ" || includesStr msg "マイク" || includesStr msg "権限") = false ∧
        (includesStr msg "デバイス" || includesStr msg "カメラ" || includesStr msg "マイク") = false ∧
        (includesStr msg "サーバー" || includesStr msg "API") = false ∧
        (includesStr msg "ネットワーク" || includesStr msg "接続") = true) ∧
      (classifyNetworkError msg = .unknown ↔
        (includesStr msg "カメラ" || includesStr msg "マイク" || includesStr msg "権限") = false ∧
        (includesStr msg "デバイス" || includesStr msg "カメラ" || includesStr msg "マイク") = false ∧
        (includesStr msg "サーバー" || includesStr msg "API") = false ∧
        (includesStr msg "ネットワーク" || includesStr msg "接続") = false)) ∧
    classifyNetworkError "マイクへのアクセスが拒否されました。ブラウザの設定でマイクを許可してください。" = .permission ∧
    classifyNetworkError "接続に失敗しました。" = .network ∧
    classifyNetworkError "接続が失われました。ネットワークを確認してください。" = .network ∧
    classifyNetworkError "Failed to create session" = .unknown := by
  refine ⟨fun msg => ?_, by decide, by decide, by decide, by decide⟩
  unfold classifyNetworkError
  cases h1 : includesStr msg "カメラ" <;> cases h2 : includesStr msg "マイク" <;>
    cases h3 : includesStr msg "権限" <;> cases h4 : includesStr msg "デバイス" <;>
    cases h5 : includesStr msg "サーバー" <;> cases h6 : includesStr msg "API" <;>
    cases h7 : includesStr msg "ネットワーク" <;> cases h8 : includesStr msg "接続" <;>
    simp [h1, h2, h3, h4, h5, h6, h7, h8]

/-- C8: while a local stream is present, `toggleAudio(enabled)` /
`toggleVideo(enabled)` change only the `enabled` flags of the corresponding
local tracks and the mirrored `mediaControls` flag: the stream keeps its
identity and its other tracks, no network operation (renegotiation or
otherwise) is issued, and `connectionState` (the peer-connection state) and
`iceConnectionState` are untouched.  `MediaManager.toggleAudio` likewise only
sets the held track's `enabled` flag. -/
theorem media_toggle_frame_effect :
    ∀ (s : VideoCallState) (ls : LocalStream) (e : Bool) (ms : MediaManagerState)
      (t : ManagedTrack),
      s.localStream = some ls →
      ms.audioTrack = some t →
        (toggleAudio e s).2 = [] ∧
        (toggleAudio e s).1.connectionState = s.connectionState ∧
        (toggleAudio e s).1.iceConnectionState = s.iceConnectionState ∧
        (toggleAudio e s).1.localStream = some
          { ls with audioTracks := ls.audioTracks.map fun tr => { tr with enabled := e } } ∧
        (toggleAudio e s).1.mediaControls = { s.mediaControls with audio := e } ∧
        (toggleVideo e s).2 = [] ∧
        (toggleVideo e s).1.connectionState = s.connectionState ∧
        (toggleVideo e s).1.iceConnectionState = s.iceConnectionState ∧
        (toggleVideo e s).1.localStream = some
          { ls with videoTracks := ls.videoTracks.map fun tr => { tr with enabled := e } } ∧
        (toggleVideo e s).1.mediaControls = { s.mediaControls with video := e } ∧
        MediaManager.toggleAudio e ms = { ms with audioTrack := some { t with enabled := e } } := by
  intro s ls e ms t hs hm
  rcases s with ⟨str, mc, cs, ics⟩
  rcases ms with ⟨at0, vt0, st0, as0, vs0, ss0, ii0⟩
  simp only at hs hm
  subst hs
  subst hm
  exact ⟨rfl, rfl, rfl, rfl, rfl, rfl, rfl, rfl, rfl, rfl, rfl⟩

/-- Witness for C8 at a concrete call state (connected, one audio and one
video track) and a concrete `MediaManager` state. -/
theorem media_toggle_frame_effect_witness :
    (toggleAudio true ⟨some ⟨5, [⟨1, false⟩], [⟨2, true⟩]⟩, ⟨false, true⟩,
        PeerConnectionState.connected, "connected"⟩).2 = [] ∧
    (toggleAudio true ⟨some ⟨5, [⟨1, false⟩], [⟨2, true⟩]⟩, ⟨false, true⟩,
        PeerConnectionState.connected, "connected"⟩).1.connectionState =
      PeerConnectionState.connected ∧
    (toggleAudio true ⟨some ⟨5, [⟨1, false⟩], [⟨2, true⟩]⟩, ⟨false, true⟩,
        PeerConnectionState.connected, "connected"⟩).1.localStream =
      some ⟨5, [⟨1, true⟩], [⟨2, true⟩]⟩ ∧
    MediaManager.toggleAudio true
        ⟨some ⟨1, false, false⟩, none, none, some [1], none, none, true⟩ =
      ⟨some ⟨1, true, false⟩, none, none, some [1], none, none, true⟩ := by
  have h := media_toggle_frame_effect
    ⟨some ⟨5, [⟨1, false⟩], [⟨2, true⟩]⟩, ⟨false, true⟩,
      PeerConnectionState.connected, "connected"⟩
    ⟨5, [⟨1, false⟩], [⟨2, true⟩]⟩ true
    ⟨some ⟨1, false, false⟩, none, none, some [1], none, none, true⟩
    ⟨1, false, false⟩ rfl rfl
  exact ⟨h.1, h.2.1, h.2.2.2.1, h.2.2.2.2.2.2.2.2.2.2⟩

/-- C9: session bootstrap is idempotent per appointment.  When the
appointment already has an active session, `initializeSession` resolves to
that same session id (the create call fails with the existing-session error
and the client falls back to join); in particular of two bootstrap calls for
one appointment, the first creates session `f1` and the second — the loser of
the create race — is redirected to join and also obtains `f1`, with no error
outcome. -/
theorem bootstrap_idempotent_same_session :
    (∀ (st : RegistryState) (a f s : Nat), lookupSession st a = some s →
      initializeSession st a f = (st, .ok s)) ∧
    (∀ (st : RegistryState) (a f1 f2 : Nat), lookupSession st a = none →
      (initializeSession st a f1).2 = .ok f1 ∧
      (initializeSession (initializeSession st a f1).1 a f2).2 = .ok f1) := by
  constructor
  · intro st a f s h
    simp [initializeSession, registryCreate, registryJoin, h]
  · intro st a f1 f2 h
    have hcreate : initializeSession st a f1 = ((a, f1) :: st, .ok f1) := by
      simp [initializeSession, registryCreate, h]
    rw [hcreate]
    refine ⟨rfl, ?_⟩
    have hlook : lookupSession ((a, f1) :: st) a = some f1 := by
      simp [lookupSession, List.find?]
    simp [initializeSession, registryCreate, registryJoin, hlook]

/-- Witness for C9 at a concrete race: appointment 42, fresh ids 1 then 2;
both bootstraps resolve to session 1 with `ok` outcomes. -/
theorem bootstrap_idempotent_same_session_witness :
    (initializeSession [] 42 1).2 = .ok 1 ∧
    (initializeSession (initializeSession [] 42 1).1 42 2).2 = .ok 1 :=
  bootstrap_idempotent_same_session.2 [] 42 1 2 rfl

/-- C10: calling `MediaManager.toggleAudio` / `toggleVideo` when the
corresponding track is absent (before a successful initialize, or after
`stopAllStreams`) is a total no-op: the functions return normally and the
whole manager state — streams, tracks, `isInitialized`, and hence
`getTrackStates` — is unchanged. -/
theorem media_manager_toggle_absent_track_noop :
    (∀ (s : MediaManagerState) (e : Bool), s.audioTrack = none →
      MediaManager.toggleAudio e s = s ∧
      MediaManager.getTrackStates (MediaManager.toggleAudio e s) =
        MediaManager.getTrackStates s) ∧
    (∀ (s : MediaManagerState) (e : Bool), s.videoTrack = none →
      MediaManager.toggleVideo e s = s ∧
      MediaManager.getTrackStates (MediaManager.toggleVideo e s) =
        MediaManager.getTrackStates s) ∧
    (∀ (s : MediaManagerState) (e : Bool),
      MediaManager.toggleAudio e (MediaManager.stopAllStreams s) =
        MediaManager.stopAllStreams s ∧
      MediaManager.toggleVideo e (MediaManager.stopAllStreams s) =
        MediaManager.stopAllStreams s) := by
  refine ⟨fun s e h => ?_, fun s e h => ?_, fun s e => ⟨rfl, rfl⟩⟩
  · have : MediaManager.toggleAudio e s = s := by
      unfold MediaManager.toggleAudio
      rw [h]
    exact ⟨this, by rw [this]⟩
  · have : MediaManager.toggleVideo e s = s := by
      unfold MediaManager.toggleVideo
      rw [h]
    exact ⟨this, by rw [this]⟩

/-- Witness for C10 at a concrete state holding only a video track: toggling
audio is a no-op and toggling after `stopAllStreams` is a no-op. -/
theorem media_manager_toggle_absent_track_noop_witness :
    (MediaManager.toggleAudio true
        ⟨none, some ⟨2, true, false⟩, none, none, some [2], none, true⟩ =
      ⟨none, some ⟨2, true, false⟩, none, none, some [2], none, true⟩ ∧
     MediaManager.getTrackStates (MediaManager.toggleAudio true
        ⟨none, some ⟨2, true, false⟩, none, none, some [2], none, true⟩) =
      MediaManager.getTrackStates
        ⟨none, some ⟨2, true, false⟩, none, none, some [2], none, true⟩) ∧
    MediaManager.toggleVideo false
        (MediaManager.stopAllStreams
          ⟨none, some ⟨2, true, false⟩, none, none, some [2], none, true⟩) =
      MediaManager.stopAllStreams
        ⟨none, some ⟨2, true, false⟩, none, none, some [2], none, true⟩ :=
  ⟨media_manager_toggle_absent_track_noop.1
     ⟨none, some ⟨2, true, false⟩, none, none, some [2], none, true⟩ true rfl,
   (media_manager_toggle_absent_track_noop.2.2
     ⟨none, some ⟨2, true, false⟩, none, none, some [2], none, true⟩ false).2⟩
